import Mathlib

/-!
Shallow embedding of the mikerhodesideas/bta-wk2 Google Ads scripts, for
checking the repository specification against the code.

Sources embedded:
- scripts/search-term.js        : calculateMetrics (derived metrics per report row)
- scripts/v2/classify-with-3-models.js : the multi-provider classification pipeline
- unnamed/part_007              : a variant of the v2 script (anthropic version header)
- scripts/starter-app-script.js : calculateCost (warning-and-zero cost path)

JavaScript numbers are modelled as rationals (the claims concern exact
zero-guards and exactly representable divisions); JSON values as a small
inductive; thrown errors as their message strings; absent object fields as
Option.none.
-/

namespace BtaWk2

/-- A spreadsheet cell value: either a string or a number. -/
inductive Cell where
  | cstr : String → Cell
  | cnum : ℚ → Cell
deriving DecidableEq, Repr

/-! ## scripts/search-term.js — calculateMetrics

The script reads each report row's metric fields with
`parseInt(...) || 0` / `parseFloat(...) || 0`: a missing or malformed field
(where parseInt/parseFloat yields NaN, which is falsy) is coerced to 0.
We model a raw field as an Option: `none` stands for missing/malformed. -/

structure ReportRow where
  searchTerm : String
  campaign : String
  adGroup : String
  impressionsRaw : Option Int
  clicksRaw : Option Int
  costMicrosRaw : Option Int
  conversionsRaw : Option ℚ
  conversionValueRaw : Option ℚ

/-- `parseInt(x, 10) || 0`: missing/malformed coerced to 0. -/
def orZeroInt (x : Option Int) : Int := x.getD 0

/-- `parseFloat(x) || 0`: missing/malformed coerced to 0. -/
def orZeroQ (x : Option ℚ) : ℚ := x.getD 0

structure DerivedMetrics where
  impressions : ℚ
  clicks : ℚ
  cost : ℚ
  conversions : ℚ
  conversionValue : ℚ
  cpc : ℚ
  ctr : ℚ
  convRate : ℚ
  cpa : ℚ
  roas : ℚ
  aov : ℚ
deriving DecidableEq, Repr

/-- The per-row metric computation inside `calculateMetrics`
(search-term.js lines 74-106). -/
def calcRowMetrics (row : ReportRow) : DerivedMetrics :=
  let impressions : ℚ := (orZeroInt row.impressionsRaw : ℤ)
  let clicks : ℚ := (orZeroInt row.clicksRaw : ℤ)
  let costMicros : ℚ := (orZeroInt row.costMicrosRaw : ℤ)
  let conversions : ℚ := orZeroQ row.conversionsRaw
  let conversionValue : ℚ := orZeroQ row.conversionValueRaw
  let cost : ℚ := costMicros / 1000000
  let cpc : ℚ := if clicks > 0 then cost / clicks else 0
  let ctr : ℚ := if impressions > 0 then clicks / impressions else 0
  let convRate : ℚ := if clicks > 0 then conversions / clicks else 0
  let cpa : ℚ := if conversions > 0 then cost / conversions else 0
  let roas : ℚ := if cost > 0 then conversionValue / cost else 0
  let aov : ℚ := if conversions > 0 then conversionValue / conversions else 0
  { impressions := impressions, clicks := clicks, cost := cost,
    conversions := conversions, conversionValue := conversionValue,
    cpc := cpc, ctr := ctr, convRate := convRate, cpa := cpa,
    roas := roas, aov := aov }

/-- The `newRow` array pushed for each report row. -/
def metricsRowCells (row : ReportRow) : List Cell :=
  let m := calcRowMetrics row
  [Cell.cstr row.searchTerm, Cell.cstr row.campaign, Cell.cstr row.adGroup,
   Cell.cnum m.impressions, Cell.cnum m.clicks, Cell.cnum m.cost,
   Cell.cnum m.conversions, Cell.cnum m.conversionValue,
   Cell.cnum m.cpc, Cell.cnum m.ctr, Cell.cnum m.convRate,
   Cell.cnum m.cpa, Cell.cnum m.roas, Cell.cnum m.aov]

/-- `calculateMetrics`: iterates the report rows in order, pushing one
output row per input row. -/
def calculateMetrics (rows : List ReportRow) : List (List Cell) :=
  rows.map metricsRowCells

/-! ## scripts/v2/classify-with-3-models.js — constants and model table -/

def CATEGORIES : List String :=
  ["INFORMATIONAL", "NAVIGATIONAL", "COMMERCIAL", "LOCAL", "QUESTION"]

def MAX_RETRIES : Nat := 3

structure TierCost where
  input : ℚ
  output : ℚ
deriving DecidableEq, Repr

structure ModelEntry where
  standard : String
  cheap : String
  costsStandard : TierCost
  costsCheap : TierCost
deriving DecidableEq, Repr

/-- The MODELS table of classify-with-3-models.js (lines 8-33):
keyed by provider name, `none` for any key not present. -/
def MODELS : String → Option ModelEntry
  | "openai" => some ⟨"gpt-4-1106-preview", "o4-mini-2025-04-16",
      ⟨2.0, 8.0⟩, ⟨1.10, 4.40⟩⟩
  | "anthropic" => some ⟨"claude-3-7-sonnet-latest", "claude-3-5-haiku-latest",
      ⟨3.0, 15.0⟩, ⟨0.8, 4.0⟩⟩
  | "gemini" => some ⟨"gemini-2.5-pro-preview-03-25", "gemini-2.0-flash",
      ⟨1.25, 10.0⟩, ⟨0.15, 0.6⟩⟩
  | _ => none

/-! ## JSON values and validateResponse (lines 207-215)

A parsed response field is `Option JVal`: `none` is an absent field
(JS `undefined`); `JVal` covers the JSON values a parsed object can hold
at the fields the validator inspects. -/

inductive JVal where
  | jstr : String → JVal
  | jnum : ℚ → JVal
  | jbool : Bool → JVal
  | jnull : JVal
deriving DecidableEq, Repr

/-- JS truthiness of a field value (`undefined`, `null`, `false`, `0`,
`""` are falsy). -/
def truthy : Option JVal → Bool
  | none => false
  | some (.jstr s) => !(s == "")
  | some (.jnum q) => !(q == 0)
  | some (.jbool b) => b
  | some .jnull => false

/-- Template-literal stringification of a field value, for the
`Invalid category: ...` message. -/
def jvalDisplay : Option JVal → String
  | none => "undefined"
  | some (.jstr s) => s
  | some (.jnum q) => toString q
  | some (.jbool b) => if b then "true" else "false"
  | some .jnull => "null"

/-- `CATEGORIES.includes(result.category)`: strict equality, so only a
string field can match, and only when it is a member of CATEGORIES.
Returns the matched category string. -/
def catMember : Option JVal → Option String
  | some (.jstr s) => if CATEGORIES.contains s then some s else none
  | _ => none

/-- The confidence branch of validateResponse (lines 211-213):
`typeof confidence !== "number" || confidence < 0 || confidence > 1`
replaces the value with 0.5; otherwise it is kept. -/
def repairConfidence : Option JVal → ℚ
  | some (.jnum q) => if q < 0 ∨ q > 1 then 0.5 else q
  | _ => 0.5

structure ParsedResponse where
  category : Option JVal
  confidence : Option JVal
deriving DecidableEq, Repr

/-- A classification result returned by a successful classifyTerm call. -/
structure RawResult where
  category : String
  confidence : ℚ
deriving DecidableEq, Repr

/-- validateResponse (lines 207-215): throws
`Invalid category: ...` when `!result.category || !CATEGORIES.includes(result.category)`;
otherwise repairs the confidence and returns the object. -/
def validateResponse (r : ParsedResponse) : Except String RawResult :=
  if truthy r.category && (catMember r.category).isSome then
    match catMember r.category with
    | some s => Except.ok ⟨s, repairConfidence r.confidence⟩
    | none => Except.error ("Invalid category: " ++ jvalDisplay r.category)
  else
    Except.error ("Invalid category: " ++ jvalDisplay r.category)

/-! ## Token accounting (lines 36, 217-221) and logCosts (lines 240-251) -/

structure TokenCounts where
  input : Nat
  output : Nat
deriving DecidableEq, Repr

/-- `let tokenCounts = { input: 0, output: 0 }` — module state at the
start of each run. -/
def initialTokenCounts : TokenCounts := ⟨0, 0⟩

/-- The usage object passed to updateTokenCounts; absent fields are
`none` (`usage.inputTokens || 0` coerces them to 0). -/
structure UsageInfo where
  inputTokens : Option Nat
  outputTokens : Option Nat
deriving DecidableEq, Repr

/-- updateTokenCounts (lines 217-221). -/
def updateTokenCounts (usage : Option UsageInfo) (tc : TokenCounts) : TokenCounts :=
  match usage with
  | none => tc
  | some u => ⟨tc.input + u.inputTokens.getD 0, tc.output + u.outputTokens.getD 0⟩

/-- The run's accumulation: the module accumulator starts at
`{input: 0, output: 0}` and one updateTokenCounts call happens per
successful provider call, in order. -/
def accumulateTokens (usages : List (Option UsageInfo)) : TokenCounts :=
  usages.foldl (fun tc u => updateTokenCounts u tc) initialTokenCounts

structure CostsOut where
  inputCost : ℚ
  outputCost : ℚ
  total : ℚ
deriving DecidableEq, Repr

/-- logCosts (lines 240-251): looks the provider up in MODELS, picks the
tier's cost entry, and computes input cost, output cost and their sum.
For a provider absent from MODELS, `MODELS[settings.model].cheap`
dereferences `undefined`, which throws. -/
def logCosts (model : String) (cheap : Bool) (tc : TokenCounts) : Except String CostsOut :=
  match MODELS model with
  | none => Except.error "TypeError: cannot read properties of undefined"
  | some entry =>
    let costs := if cheap then entry.costsCheap else entry.costsStandard
    let inputCost := ((tc.input : ℚ) / 1000000) * costs.input
    let outputCost := ((tc.output : ℚ) / 1000000) * costs.output
    Except.ok ⟨inputCost, outputCost, inputCost + outputCost⟩

/-! ## readAndValidateSettings (lines 52-68) -/

structure RunSettings where
  model : String
  cheap : Bool
  topTerms : List String
deriving DecidableEq, Repr

/-- `topTerms` filter: `term?.toString().trim()` is truthy — the cell is
non-null and its trimmed text is nonempty. -/
def cellKept : Option String → Bool
  | none => false
  | some s => !(s.trim == "")

/-- JS `String.prototype.toLowerCase`, character by character. -/
def jsToLower (s : String) : String := ⟨s.data.map Char.toLower⟩

/-- readAndValidateSettings (lines 52-68), over the raw cell values it
reads: the model cell (lowercased), the cheap cell (string-compared to
"true"), and the topTerms range. "google" is renamed "gemini"; an
unknown model and an empty term list each throw. -/
def readAndValidateSettings (modelCell : String) (cheapCell : String)
    (topTermsCells : List (Option String)) : Except String RunSettings :=
  let model0 := jsToLower modelCell
  let cheap := jsToLower cheapCell == "true"
  let topTerms := (topTermsCells.filter cellKept).filterMap id
  let model1 := if model0 == "google" then "gemini" else model0
  if (MODELS model1).isNone then Except.error "Invalid model"
  else if topTerms.isEmpty then Except.error "No search terms found"
  else Except.ok ⟨model1, cheap, topTerms⟩

/-! ## classifyTerms retry loop (lines 79-98)

The behaviour of one classifyFn call is modelled as a function from the
attempt index to `Except String RawResult`: `.error msg` stands for a
throw of `new Error(msg)` (HTTP error, parse error, invalid category),
`.ok r` for a validated result. `dur a` is the measured wall-clock
duration (in seconds) of attempt `a`. -/

/-- `error.toString()` for an error thrown as `new Error(msg)`:
`"Error"` when the message is empty, `"Error: " ++ msg` otherwise. -/
def jsErrorToString (msg : String) : String :=
  if msg == "" then "Error" else "Error: " ++ msg

/-- One row of the results array: the success branch spreads the
validated result and adds term and duration (and no error field); the
terminal failure branch is the literal
`{ term, category: "ERROR", confidence: 0, error: error.toString() }`. -/
structure TermResult where
  term : String
  category : String
  confidence : ℚ
  duration : Option ℚ
  error : Option String
deriving DecidableEq, Repr

/-- The `for (let attempt = 0; attempt < MAX_RETRIES; attempt++)` loop,
by recursion on the number of attempts remaining (`rem + 1` attempts
remain, the current one has index `a`; the source's
`attempt === MAX_RETRIES - 1` test is `rem = 0`).  Also returns the list
of `Utilities.sleep` durations, in milliseconds, in order.  The fuel-0
case is unreachable from `classifyTermWithRetry` since MAX_RETRIES > 0
and every final attempt returns. -/
def runAttempts (f : Nat → Except String RawResult) (dur : Nat → ℚ)
    (term : String) : Nat → Nat → TermResult × List Nat
  | _, 0 => (⟨term, "", 0, none, none⟩, [])
  | a, rem + 1 =>
    match f a with
    | Except.ok r => (⟨term, r.category, r.confidence, some (dur a), none⟩, [])
    | Except.error e =>
      if rem = 0 then
        (⟨term, "ERROR", 0, none, some (jsErrorToString e)⟩, [])
      else
        let next := runAttempts f dur term (a + 1) rem
        (next.1, 2 ^ a * 1000 :: next.2)

/-- The body of the `map` callback in classifyTerms: run the retry loop
from attempt 0 with MAX_RETRIES total attempts. -/
def classifyTermWithRetry (f : Nat → Except String RawResult) (dur : Nat → ℚ)
    (term : String) : TermResult × List Nat :=
  runAttempts f dur term 0 MAX_RETRIES

/-- classifyTerms (lines 79-98): one retry-wrapped classification per
term of the list, in order.  `behav t a` is what the classifyFn call for
term `t` does on its attempt with index `a`. -/
def classifyTerms (terms : List String)
    (behav : String → Nat → Except String RawResult)
    (dur : String → Nat → ℚ) : List TermResult :=
  terms.map fun t => (classifyTermWithRetry (behav t) (dur t) t).1

/-! ## outputResults (lines 223-238) -/

def resultsHeader : List String :=
  ["Search Term", "Category", "Confidence", "Duration (sec)", "Error"]

/-- `r.confidence || ""`: the number 0 is falsy, so it renders as the
empty string. -/
def confidenceCell (q : ℚ) : Cell :=
  if q = 0 then Cell.cstr "" else Cell.cnum q

/-- `r.duration || ""`: an absent duration (terminal failure row) and a
0 duration both render as the empty string. -/
def durationCell : Option ℚ → Cell
  | none => Cell.cstr ""
  | some q => if q = 0 then Cell.cstr "" else Cell.cnum q

/-- `r.error || ""`: an absent error renders as the empty string. -/
def errorCell (e : Option String) : Cell := Cell.cstr (e.getD "")

/-- One data row written to the Results tab (line 233). -/
def resultRow (r : TermResult) : List Cell :=
  [Cell.cstr r.term, Cell.cstr r.category, confidenceCell r.confidence,
   durationCell r.duration, errorCell r.error]

/-- The block of data rows written by outputResults. -/
def outputRows (results : List TermResult) : List (List Cell) :=
  results.map resultRow

/-! ## classifyTerm request construction (lines 100-173) -/

/-- JS `String.prototype.startsWith`-style prefix test on char lists. -/
def listStartsWith : List Char → List Char → Bool
  | _, [] => true
  | [], _ :: _ => false
  | a :: as, b :: bs => a == b && listStartsWith as bs

/-- Substring containment on char lists. -/
def listHasSub : List Char → List Char → Bool
  | [], p => p.isEmpty
  | l@(_ :: t), p => listStartsWith l p || listHasSub t p

/-- JS `String.prototype.includes`. -/
def jsIncludes (s pat : String) : Bool := listHasSub s.data pat.data

inductive Provider where
  | openai
  | anthropic
  | gemini
deriving DecidableEq, Repr

/-- Provider dispatch of classifyTerm (lines 152-162): substring
matching on the model identifier. -/
def modelTypeOf (modelConfig : String) : Except String Provider :=
  if jsIncludes modelConfig "gemini" then Except.ok Provider.gemini
  else if jsIncludes modelConfig "claude" then Except.ok Provider.anthropic
  else if jsIncludes modelConfig "gpt" || jsIncludes modelConfig "o4-mini" then
    Except.ok Provider.openai
  else Except.error ("Unknown model type: " ++ modelConfig)

structure ChatMessage where
  role : String
  content : String
deriving DecidableEq, Repr

/-- OpenAI request body: `{ model, messages }`. -/
structure OpenAIPayload where
  model : String
  messages : List ChatMessage
deriving DecidableEq, Repr

/-- Anthropic request body: `{ messages, model, max_tokens }`. -/
structure AnthropicPayload where
  messages : List ChatMessage
  model : String
  max_tokens : Nat
deriving DecidableEq, Repr

/-- Gemini request body: `{ contents: [{ parts: [{ text }] }],
generationConfig: { maxOutputTokens } }`; each content is its list of
part texts. -/
structure GeminiPayload where
  contents : List (List String)
  maxOutputTokens : Nat
deriving DecidableEq, Repr

inductive RequestPayload where
  | pOpenai : OpenAIPayload → RequestPayload
  | pAnthropic : AnthropicPayload → RequestPayload
  | pGemini : GeminiPayload → RequestPayload
deriving DecidableEq, Repr

structure EndpointConfig where
  url : String
  headers : List (String × String)
  createPayload : String → RequestPayload

/-- The HTTP request handed to UrlFetchApp.fetch (lines 167-173):
method "POST", contentType "application/json", the endpoint's headers
and the JSON-stringified payload. -/
structure HttpRequest where
  url : String
  method : String
  headers : List (String × String)
  contentType : String
  payload : RequestPayload

/-- The `endpoints` table of classify-with-3-models.js (lines 101-150). -/
def endpointsV2 (apiKey modelConfig : String) : Provider → EndpointConfig
  | Provider.openai =>
    ⟨"https://api.openai.com/v1/chat/completions",
     [("Authorization", "Bearer " ++ apiKey)],
     fun prompt => RequestPayload.pOpenai ⟨modelConfig, [⟨"user", prompt⟩]⟩⟩
  | Provider.anthropic =>
    ⟨"https://api.anthropic.com/v1/messages",
     [("x-api-key", apiKey)],
     fun prompt => RequestPayload.pAnthropic ⟨[⟨"user", prompt⟩], modelConfig, 500⟩⟩
  | Provider.gemini =>
    ⟨"https://generativelanguage.googleapis.com/v1beta/models/" ++ modelConfig
       ++ ":generateContent?key=" ++ apiKey,
     [],
     fun prompt => RequestPayload.pGemini ⟨[[prompt]], 500⟩⟩

/-- createClassificationPrompt (lines 194-205). -/
def createClassificationPrompt (term : String) : String :=
  "Classify the following search term into exactly one of these categories: \n  "
  ++ String.intercalate ", " CATEGORIES
  ++ "\n  \n  Search term: \"" ++ term
  ++ "\"\n  \n  Respond with ONLY a JSON object in this EXACT format:\n  \x7b\n    \"category\": \"ONE_OF_THE_CATEGORIES_ABOVE\",\n    \"confidence\": 0.XX (a number between 0 and 1)\n  \x7d"

/-- The request built by classifyTerm in classify-with-3-models.js:
dispatch on the model identifier, then POST the provider's payload for
the classification prompt to the provider's endpoint with the
provider's headers. -/
def buildRequestV2 (term apiKey modelConfig : String) : Except String HttpRequest :=
  match modelTypeOf modelConfig with
  | Except.error e => Except.error e
  | Except.ok p =>
    let config := endpointsV2 apiKey modelConfig p
    let prompt := createClassificationPrompt term
    Except.ok ⟨config.url, "POST", config.headers, "application/json",
               config.createPayload prompt⟩

/-! ## unnamed/part_007 — variant endpoints table (lines 88-129)

Identical structure, except the anthropic entry also sends the
`anthropic-version` header, the google provider key is "google", and the
usage object is passed through raw. -/

inductive ProviderP7 where
  | openai
  | anthropic
  | google
deriving DecidableEq, Repr

/-- The `endpoints` table of part_007. -/
def endpointsP7 (apiKey modelConfig : String) : ProviderP7 → EndpointConfig
  | ProviderP7.openai =>
    ⟨"https://api.openai.com/v1/chat/completions",
     [("Authorization", "Bearer " ++ apiKey)],
     fun prompt => RequestPayload.pOpenai ⟨modelConfig, [⟨"user", prompt⟩]⟩⟩
  | ProviderP7.anthropic =>
    ⟨"https://api.anthropic.com/v1/messages",
     [("x-api-key", apiKey), ("anthropic-version", "2023-06-01")],
     fun prompt => RequestPayload.pAnthropic ⟨[⟨"user", prompt⟩], modelConfig, 500⟩⟩
  | ProviderP7.google =>
    ⟨"https://generativelanguage.googleapis.com/v1beta/models/" ++ modelConfig
       ++ ":generateContent?key=" ++ apiKey,
     [],
     fun prompt => RequestPayload.pGemini ⟨[[prompt]], 500⟩⟩

/-! ## scripts/starter-app-script.js — calculateCost (lines 1213-1227)

The cost table there is keyed by model identifier; an unknown model
logs a warning and returns cost 0 instead of throwing. -/

def TOKEN_COSTS : String → Option TierCost
  | "gpt-4-1106-preview" => some ⟨2.0, 8.0⟩
  | "o4-mini-2025-04-16" => some ⟨1.10, 4.40⟩
  | "claude-3-7-sonnet-latest" => some ⟨3.0, 15.0⟩
  | "claude-3-5-haiku-latest" => some ⟨0.8, 4.0⟩
  | "gemini-2.5-pro" => some ⟨1.25, 10.0⟩
  | "gemini-2.0-flash" => some ⟨0.15, 0.6⟩
  | _ => none

/-- calculateCost from starter-app-script.js: the returned total cost,
together with whether the no-cost-data warning was logged. -/
def calculateCost (model : String) (tc : TokenCounts) : ℚ × Bool :=
  match TOKEN_COSTS model with
  | none => (0, true)
  | some costs =>
    let inputCost := ((tc.input : ℚ) / 1000000) * costs.input
    let outputCost := ((tc.output : ℚ) / 1000000) * costs.output
    (inputCost + outputCost, false)

/-! ## Theorems -/

/-- C1: For every ReportRow, calculateMetrics computes
cost = cost_micros / 1,000,000 (cost_micros = 2,500,000 gives cost = 5/2
exactly), every derived ratio is zero-guarded (clicks = 0 forces
cpc = convRate = 0; impressions = 0 forces ctr = 0; conversions = 0
forces cpa = aov = 0; cost = 0 forces roas = 0), and malformed/missing
numeric fields are coerced to 0 and produce well-defined all-zero
metrics rather than an error, NaN or Infinity. -/
theorem calculateMetrics_zero_guarded :
    (∀ row : ReportRow,
      (calcRowMetrics row).cost = ((orZeroInt row.costMicrosRaw : ℤ) : ℚ) / 1000000
      ∧ ((calcRowMetrics row).clicks = 0 →
          (calcRowMetrics row).cpc = 0 ∧ (calcRowMetrics row).convRate = 0)
      ∧ ((calcRowMetrics row).impressions = 0 → (calcRowMetrics row).ctr = 0)
      ∧ ((calcRowMetrics row).conversions = 0 →
          (calcRowMetrics row).cpa = 0 ∧ (calcRowMetrics row).aov = 0)
      ∧ ((calcRowMetrics row).cost = 0 → (calcRowMetrics row).roas = 0))
    ∧ (calcRowMetrics ⟨"t", "c", "a", some 1000, some 40, some 2500000,
        some 2, some 100⟩).cost = 5 / 2
    ∧ calcRowMetrics ⟨"t", "c", "a", none, none, none, none, none⟩
        = ⟨0, 0, 0, 0, 0, 0, 0, 0, 0, 0, 0⟩ := by
  refine ⟨fun row => ⟨rfl, fun h => ?_, fun h => ?_, fun h => ?_, fun h => ?_⟩, ?_, ?_⟩
  · simp only [calcRowMetrics] at h ⊢
    simp [h]
  · simp only [calcRowMetrics] at h ⊢
    simp [h]
  · simp only [calcRowMetrics] at h ⊢
    simp [h]
  · simp only [calcRowMetrics] at h ⊢
    simp [h]
  · norm_num [calcRowMetrics, orZeroInt]
  · simp [calcRowMetrics, orZeroInt, orZeroQ]

/-- Witness for C1 at a concrete row with a missing clicks field:
clicks coerces to 0 and the zero-guard gives cpc = 0. -/
theorem calculateMetrics_zero_guarded_witness :
    (calcRowMetrics ⟨"t", "c", "a", some 5, none, some 2500000, none, some 7⟩).clicks = 0
    ∧ (calcRowMetrics ⟨"t", "c", "a", some 5, none, some 2500000, none, some 7⟩).cpc = 0 :=
  ⟨by norm_num [calcRowMetrics, orZeroInt],
   ((calculateMetrics_zero_guarded.1
      ⟨"t", "c", "a", some 5, none, some 2500000, none, some 7⟩).2.1
      (by norm_num [calcRowMetrics, orZeroInt])).1⟩

lemma mem_CATEGORIES_ne_empty (s : String) (h : s ∈ CATEGORIES) : s ≠ "" := by
  fin_cases h <;> decide

lemma catMember_mem (v : Option JVal) (s : String) (h : catMember v = some s) :
    s ∈ CATEGORIES := by
  cases v with
  | none => simp [catMember] at h
  | some j =>
    cases j with
    | jstr t =>
      simp [catMember] at h
      exact h.2 ▸ h.1
    | jnum q => simp [catMember] at h
    | jbool b => simp [catMember] at h
    | jnull => simp [catMember] at h

lemma catMember_truthy (v : Option JVal) (s : String) (h : catMember v = some s) :
    truthy v = true := by
  cases v with
  | none => simp [catMember] at h
  | some j =>
    cases j with
    | jstr t =>
      simp [catMember] at h
      have := mem_CATEGORIES_ne_empty t h.1
      simp [truthy, this]
    | jnum q => simp [catMember] at h
    | jbool b => simp [catMember] at h
    | jnull => simp [catMember] at h

lemma validateResponse_ok_of_catMember (r : ParsedResponse) (s : String)
    (h : catMember r.category = some s) :
    validateResponse r = Except.ok ⟨s, repairConfidence r.confidence⟩ := by
  have ht := catMember_truthy r.category s h
  simp [validateResponse, ht, h]

/-- C4: For every parsed response whose category is valid, a missing,
non-numeric, or out-of-range confidence is replaced with exactly 0.5 and
the validation still succeeds, while a numeric confidence inside [0,1]
(including exactly 0 and exactly 1) is returned unchanged. -/
theorem validateResponse_confidence_repair :
    ∀ (r : ParsedResponse) (s : String), catMember r.category = some s →
      (∀ q : ℚ, r.confidence = some (JVal.jnum q) → 0 ≤ q → q ≤ 1 →
        validateResponse r = Except.ok ⟨s, q⟩)
      ∧ (r.confidence = none → validateResponse r = Except.ok ⟨s, 0.5⟩)
      ∧ (∀ t : String, r.confidence = some (JVal.jstr t) →
          validateResponse r = Except.ok ⟨s, 0.5⟩)
      ∧ (∀ b : Bool, r.confidence = some (JVal.jbool b) →
          validateResponse r = Except.ok ⟨s, 0.5⟩)
      ∧ (r.confidence = some JVal.jnull → validateResponse r = Except.ok ⟨s, 0.5⟩)
      ∧ (∀ q : ℚ, r.confidence = some (JVal.jnum q) → (q < 0 ∨ q > 1) →
          validateResponse r = Except.ok ⟨s, 0.5⟩) := by
  intro r s h
  have hok := validateResponse_ok_of_catMember r s h
  refine ⟨fun q hq h0 h1 => ?_, fun hq => ?_, fun t hq => ?_, fun b hq => ?_,
          fun hq => ?_, fun q hq hbad => ?_⟩
  · rw [hok, hq]
    have : ¬(q < 0 ∨ q > 1) := by
      push_neg
      exact ⟨h0, h1⟩
    simp [repairConfidence, this]
  · rw [hok, hq]
    simp [repairConfidence]
  · rw [hok, hq]
    simp [repairConfidence]
  · rw [hok, hq]
    simp [repairConfidence]
  · rw [hok, hq]
    simp [repairConfidence]
  · rw [hok, hq]
    simp [repairConfidence, hbad]

/-- Witness for C4: a valid category with the out-of-range confidence 2
validates successfully with confidence replaced by 0.5, and with the
in-range confidence 1 it is kept unchanged. -/
theorem validateResponse_confidence_repair_witness :
    catMember (some (JVal.jstr "COMMERCIAL")) = some "COMMERCIAL"
    ∧ validateResponse ⟨some (JVal.jstr "COMMERCIAL"), some (JVal.jnum 2)⟩
        = Except.ok ⟨"COMMERCIAL", 0.5⟩
    ∧ validateResponse ⟨some (JVal.jstr "COMMERCIAL"), some (JVal.jnum 1)⟩
        = Except.ok ⟨"COMMERCIAL", 1⟩ :=
  ⟨by simp [catMember, CATEGORIES],
   (validateResponse_confidence_repair
      ⟨some (JVal.jstr "COMMERCIAL"), some (JVal.jnum 2)⟩ "COMMERCIAL"
      (by simp [catMember, CATEGORIES])).2.2.2.2.2 2 rfl (by norm_num),
   (validateResponse_confidence_repair
      ⟨some (JVal.jstr "COMMERCIAL"), some (JVal.jnum 1)⟩ "COMMERCIAL"
      (by simp [catMember, CATEGORIES])).1 1 rfl (by norm_num) (by norm_num)⟩

/-- C6: Validation fails whenever the parsed category is absent, and
whenever it is any value outside the active category enum; a successful
validation never returns a category outside the enum. -/
theorem validateResponse_strict_category :
    ∀ r : ParsedResponse,
      (r.category = none → validateResponse r = Except.error "Invalid category: undefined")
      ∧ (catMember r.category = none → ∃ msg, validateResponse r = Except.error msg)
      ∧ (∀ out : RawResult, validateResponse r = Except.ok out → out.category ∈ CATEGORIES) := by
  intro r
  refine ⟨fun h => ?_, fun h => ?_, fun out h => ?_⟩
  · simp [validateResponse, h, truthy, catMember, jvalDisplay]
  · exact ⟨"Invalid category: " ++ jvalDisplay r.category, by simp [validateResponse, h]⟩
  · by_cases hc : (catMember r.category).isSome
    · obtain ⟨s, hs⟩ := Option.isSome_iff_exists.mp hc
      rw [validateResponse_ok_of_catMember r s hs] at h
      cases h
      exact catMember_mem r.category s hs
    · have hnone : catMember r.category = none := Option.not_isSome_iff_eq_none.mp hc
      simp [validateResponse, hnone] at h

/-- Witness for C6: the out-of-enum category "BANANA" makes validation
fail with an error. -/
theorem validateResponse_strict_category_witness :
    catMember (some (JVal.jstr "BANANA")) = none
    ∧ ∃ msg, validateResponse ⟨some (JVal.jstr "BANANA"), some (JVal.jnum 0.9)⟩
        = Except.error msg :=
  ⟨by simp [catMember, CATEGORIES],
   (validateResponse_strict_category
      ⟨some (JVal.jstr "BANANA"), some (JVal.jnum 0.9)⟩).2.1
      (by simp [catMember, CATEGORIES])⟩

lemma string_data_append (a b : String) : (a ++ b).data = a.data ++ b.data := by
  cases a
  cases b
  rfl

lemma listStartsWith_refl (l : List Char) : listStartsWith l l = true := by
  induction l with
  | nil => rfl
  | cons a t ih => simp [listStartsWith, ih]

lemma listHasSub_refl (l : List Char) : listHasSub l l = true := by
  cases l with
  | nil => rfl
  | cons a t => simp [listHasSub, listStartsWith_refl]

lemma listHasSub_append (xs ys : List Char) : listHasSub (xs ++ ys) ys = true := by
  induction xs with
  | nil => simpa using listHasSub_refl ys
  | cons a t ih => simp [listHasSub, ih]

lemma jsErrorToString_ne_empty (msg : String) : jsErrorToString msg ≠ "" := by
  unfold jsErrorToString
  split
  · decide
  · intro hcon
    have h2 := congrArg String.data hcon
    rw [string_data_append] at h2
    have h3 : ("Error: ".data : List Char) = [] := (List.append_eq_nil.mp h2).1
    exact absurd h3 (by decide)

lemma jsErrorToString_hasSub (msg : String) :
    listHasSub (jsErrorToString msg).data msg.data = true := by
  unfold jsErrorToString
  split
  case isTrue h =>
    have : msg = "" := by simpa using h
    subst this
    decide
  case isFalse h =>
    rw [string_data_append]
    exact listHasSub_append _ _

lemma runAttempts_step (f : Nat → Except String RawResult) (dur : Nat → ℚ)
    (term : String) (a rem : Nat) :
    runAttempts f dur term a (rem + 1)
      = match f a with
        | Except.ok r => (⟨term, r.category, r.confidence, some (dur a), none⟩, [])
        | Except.error e =>
          if rem = 0 then
            (⟨term, "ERROR", 0, none, some (jsErrorToString e)⟩, [])
          else
            ((runAttempts f dur term (a + 1) rem).1,
             2 ^ a * 1000 :: (runAttempts f dur term (a + 1) rem).2) := rfl

lemma runAttempts_term_eq (f : Nat → Except String RawResult) (dur : Nat → ℚ)
    (term : String) : ∀ (n a : Nat), (runAttempts f dur term a n).1.term = term := by
  intro n
  induction n with
  | zero => intro a; rfl
  | succ m ih =>
    intro a
    rw [runAttempts_step]
    cases hfa : f a with
    | ok r => simp [hfa]
    | error e =>
      by_cases hm : m = 0
      · simp [hfa, hm]
      · simp [hfa, hm, ih (a + 1)]

lemma pow_sleep_shift (a k : Nat) :
    2 ^ a * 1000 :: (List.range k).map (fun i => 2 ^ (a + 1 + i) * 1000)
      = (List.range (k + 1)).map (fun i => 2 ^ (a + i) * 1000) := by
  rw [List.range_succ_eq_map, List.map_cons, List.map_map]
  refine congr_arg₂ List.cons (by norm_num) ?_
  apply List.map_congr_left
  intro i _
  simp only [Function.comp]
  have hx : a + 1 + i = a + (i + 1) := by omega
  rw [hx]

lemma runAttempts_all_fail (f : Nat → Except String RawResult) (dur : Nat → ℚ)
    (term : String) (e : Nat → String) :
    ∀ (n a : Nat), 0 < n → (∀ i, i < n → f (a + i) = Except.error (e (a + i))) →
    runAttempts f dur term a n
      = (⟨term, "ERROR", 0, none, some (jsErrorToString (e (a + n - 1)))⟩,
         (List.range (n - 1)).map (fun i => 2 ^ (a + i) * 1000)) := by
  intro n
  induction n with
  | zero => intro a h; omega
  | succ m ih =>
    intro a _ h
    have hfa : f a = Except.error (e a) := by simpa using h 0 (Nat.succ_pos m)
    cases m with
    | zero => simp [runAttempts_step, hfa]
    | succ k =>
      have hshift : ∀ i, i < k + 1 → f (a + 1 + i) = Except.error (e (a + 1 + i)) := by
        intro i hi
        have hconv : a + (i + 1) = a + 1 + i := by omega
        have := h (i + 1) (by omega)
        rw [hconv] at this
        exact this
      have hrec := ih (a + 1) (Nat.succ_pos k) hshift
      rw [runAttempts_step, hfa]
      simp only [Nat.succ_ne_zero, if_false]
      rw [hrec]
      refine Prod.ext ?_ ?_
      · have hidx : a + 1 + (k + 1) - 1 = a + (k + 1 + 1) - 1 := by omega
        simp [hidx]
      · simpa using pow_sleep_shift a k

lemma runAttempts_success (f : Nat → Except String RawResult) (dur : Nat → ℚ)
    (term : String) :
    ∀ (k n a : Nat) (r : RawResult), k < n →
      (∀ i, i < k → ∃ msg, f (a + i) = Except.error msg) →
      f (a + k) = Except.ok r →
      runAttempts f dur term a n
        = (⟨term, r.category, r.confidence, some (dur (a + k)), none⟩,
           (List.range k).map (fun i => 2 ^ (a + i) * 1000)) := by
  intro k
  induction k with
  | zero =>
    intro n a r hk _ hok
    cases n with
    | zero => omega
    | succ m =>
      have hfa : f a = Except.ok r := by simpa using hok
      simp [runAttempts_step, hfa]
  | succ j ih =>
    intro n a r hk hfail hok
    cases n with
    | zero => omega
    | succ m =>
      obtain ⟨msg, hmsg⟩ := hfail 0 (Nat.succ_pos j)
      have hfa : f a = Except.error msg := by simpa using hmsg
      cases m with
      | zero => omega
      | succ l =>
        have hfail2 : ∀ i, i < j → ∃ msg2, f (a + 1 + i) = Except.error msg2 := by
          intro i hi
          obtain ⟨msg2, hmsg2⟩ := hfail (i + 1) (by omega)
          refine ⟨msg2, ?_⟩
          have hconv : a + (i + 1) = a + 1 + i := by omega
          rw [hconv] at hmsg2
          exact hmsg2
        have hok2 : f (a + 1 + j) = Except.ok r := by
          have hconv : a + (j + 1) = a + 1 + j := by omega
          rw [hconv] at hok
          exact hok
        have hrec := ih (l + 1) (a + 1) r (by omega) hfail2 hok2
        rw [runAttempts_step, hfa]
        simp only [Nat.succ_ne_zero, if_false]
        rw [hrec]
        refine Prod.ext ?_ ?_
        · have hidx : a + 1 + j = a + (j + 1) := by omega
          simp [hidx]
        · simpa using pow_sleep_shift a j

/-- C2: If every one of the MAX_RETRIES attempts for a term throws, the
retry loop returns a terminal result with category "ERROR", confidence 0
and a non-empty error message containing the last error, and the
surrounding map continues with the remaining terms; if any attempt
succeeds, the returned result carries the successful classification and
no error field, even when earlier attempts failed. -/
theorem classifyTerms_error_absorption :
    (∀ (term : String) (f : Nat → Except String RawResult) (dur : Nat → ℚ)
        (e : Nat → String),
        (∀ a, a < MAX_RETRIES → f a = Except.error (e a)) →
        (classifyTermWithRetry f dur term).1
          = ⟨term, "ERROR", 0, none, some (jsErrorToString (e (MAX_RETRIES - 1)))⟩
        ∧ jsErrorToString (e (MAX_RETRIES - 1)) ≠ ""
        ∧ listHasSub (jsErrorToString (e (MAX_RETRIES - 1))).data
            (e (MAX_RETRIES - 1)).data = true)
    ∧ (∀ (terms1 terms2 : List String) (t : String)
        (behav : String → Nat → Except String RawResult) (dur : String → Nat → ℚ),
        classifyTerms (terms1 ++ t :: terms2) behav dur
          = classifyTerms terms1 behav dur
            ++ (classifyTermWithRetry (behav t) (dur t) t).1
              :: classifyTerms terms2 behav dur)
    ∧ (∀ (term : String) (f : Nat → Except String RawResult) (dur : Nat → ℚ)
        (k : Nat) (r : RawResult), k < MAX_RETRIES →
        (∀ a, a < k → ∃ msg, f a = Except.error msg) →
        f k = Except.ok r →
        (classifyTermWithRetry f dur term).1
          = ⟨term, r.category, r.confidence, some (dur k), none⟩) := by
  refine ⟨fun term f dur e h => ?_, fun terms1 terms2 t behav dur => ?_,
          fun term f dur k r hk hfail hok => ?_⟩
  · have hall := runAttempts_all_fail f dur term e MAX_RETRIES 0
      (by norm_num [MAX_RETRIES]) (fun i hi => by simpa using h i hi)
    refine ⟨?_, jsErrorToString_ne_empty _, jsErrorToString_hasSub _⟩
    rw [classifyTermWithRetry, hall]
    simp
  · simp [classifyTerms]
  · have hs := runAttempts_success f dur term k MAX_RETRIES 0 r hk
      (fun i hi => by simpa using hfail i hi) (by simpa using hok)
    rw [classifyTermWithRetry, hs]
    simp

/-- Witness for C2: three attempts all throwing "boom" yield the
terminal ERROR result; a failure followed by a success yields the
classification with no error field. -/
theorem classifyTerms_error_absorption_witness :
    (classifyTermWithRetry (fun _ => Except.error "boom") (fun _ => 0) "shoes").1
      = ⟨"shoes", "ERROR", 0, none, some (jsErrorToString "boom")⟩
    ∧ (classifyTermWithRetry
        (fun a => if a = 0 then Except.error "boom" else Except.ok ⟨"LOCAL", 1⟩)
        (fun _ => 0) "shoes").1
      = ⟨"shoes", "LOCAL", 1, some 0, none⟩ :=
  ⟨(classifyTerms_error_absorption.1 "shoes" (fun _ => Except.error "boom")
      (fun _ => 0) (fun _ => "boom") (fun _ _ => rfl)).1,
   classifyTerms_error_absorption.2.2 "shoes"
      (fun a => if a = 0 then Except.error "boom" else Except.ok ⟨"LOCAL", 1⟩)
      (fun _ => 0) 1 ⟨"LOCAL", 1⟩ (by norm_num [MAX_RETRIES])
      (fun a ha => ⟨"boom", by
        have h0 : a = 0 := by omega
        subst h0
        rfl⟩) rfl⟩

/-- Counterexample for C3: with every attempt failing, the sleeps are
1000 ms then 2000 ms — the first back-off sleep is 1 second, not the
claimed 2 seconds, and the total is 3000 ms, not the claimed
(2^1 + 2^2) * 1000 = 6000 ms. -/
theorem backoff_schedule_counterexample :
    (classifyTermWithRetry (fun _ => Except.error "boom") (fun _ => 0) "t").2
      = [1000, 2000]
    ∧ (classifyTermWithRetry (fun _ => Except.error "boom") (fun _ => 0) "t").2.sum
      = 3000
    ∧ (1000 : Nat) ≠ 2 ^ 1 * 1000
    ∧ (3000 : Nat) ≠ (2 ^ 1 + 2 ^ 2) * 1000 := by
  have h : (classifyTermWithRetry (fun _ => Except.error "boom") (fun _ => 0) "t").2
      = [1000, 2000] := rfl
  exact ⟨h, by rw [h]; decide, by decide, by decide⟩

/-- C3 (amended): between consecutive failed attempts the loop sleeps
2^attempt seconds with attempt starting at 0 (so the first back-off
sleep is 1 second); across MAX_RETRIES consecutive failures the sleeps
are exactly 2^0, ..., 2^(MAX_RETRIES-2) seconds — concretely 1 s then
2 s, totalling (2^(MAX_RETRIES-1) - 1) * 1000 ms = 3000 ms — with no
sleep after the final failed attempt. -/
theorem backoff_sleeps_amended :
    ∀ (term : String) (f : Nat → Except String RawResult) (dur : Nat → ℚ)
      (e : Nat → String),
      (∀ a, a < MAX_RETRIES → f a = Except.error (e a)) →
      (classifyTermWithRetry f dur term).2
        = (List.range (MAX_RETRIES - 1)).map (fun a => 2 ^ a * 1000)
      ∧ (classifyTermWithRetry f dur term).2 = [1000, 2000]
      ∧ (classifyTermWithRetry f dur term).2.sum
        = (2 ^ (MAX_RETRIES - 1) - 1) * 1000 := by
  intro term f dur e h
  have hall := runAttempts_all_fail f dur term e MAX_RETRIES 0
    (by norm_num [MAX_RETRIES]) (fun i hi => by simpa using h i hi)
  have h2 : (classifyTermWithRetry f dur term).2
      = (List.range (MAX_RETRIES - 1)).map (fun a => 2 ^ a * 1000) := by
    rw [classifyTermWithRetry, hall]
    simp
  refine ⟨h2, ?_, ?_⟩
  · rw [h2]
    decide
  · rw [h2]
    decide

/-- Witness for C3 (amended) at a concrete always-failing behaviour. -/
theorem backoff_sleeps_amended_witness :
    (classifyTermWithRetry (fun _ => Except.error "oops") (fun _ => 0) "w").2
      = [1000, 2000] :=
  (backoff_sleeps_amended "w" (fun _ => Except.error "oops") (fun _ => 0)
    (fun _ => "oops") (fun _ _ => rfl)).2.1

/-- C9: classifyTerms returns exactly one result per input term, in
input order, and each result's term field equals the corresponding
input term, for every term list and every behaviour of the per-term
classify function. -/
theorem classifyTerms_one_row_per_term :
    ∀ (terms : List String) (behav : String → Nat → Except String RawResult)
      (dur : String → Nat → ℚ),
      (classifyTerms terms behav dur).length = terms.length
      ∧ (outputRows (classifyTerms terms behav dur)).length = terms.length
      ∧ (classifyTerms terms behav dur).map TermResult.term = terms := by
  intro terms behav dur
  refine ⟨by simp [classifyTerms], by simp [outputRows, classifyTerms], ?_⟩
  simp only [classifyTerms, List.map_map]
  have hcomp : (TermResult.term ∘ fun t => (classifyTermWithRetry (behav t) (dur t) t).1)
      = id := by
    funext t
    simp [Function.comp, classifyTermWithRetry, runAttempts_term_eq]
  rw [hcomp, List.map_id]

lemma accumulate_general :
    ∀ (usages : List (Option UsageInfo)) (tc : TokenCounts),
      usages.foldl (fun acc u => updateTokenCounts u acc) tc
        = ⟨tc.input + (usages.map (fun u => match u with
              | none => 0
              | some x => x.inputTokens.getD 0)).sum,
           tc.output + (usages.map (fun u => match u with
              | none => 0
              | some x => x.outputTokens.getD 0)).sum⟩ := by
  intro usages
  induction usages with
  | nil => intro tc; simp
  | cons u us ih =>
    intro tc
    cases u with
    | none =>
      simp only [List.foldl_cons, List.map_cons, List.sum_cons]
      rw [ih]
      simp [updateTokenCounts, Nat.add_assoc]
    | some x =>
      simp only [List.foldl_cons, List.map_cons, List.sum_cons]
      rw [ih]
      simp [updateTokenCounts, Nat.add_assoc]

/-- C5: the token accumulator starts at {input: 0, output: 0} and each
successful call adds exactly its reported token counts (absent usage
fields count 0): the run totals are the sums of the per-call counts —
concretely {10,5} then {20,15} gives {30,20} — and the logged cost for
the configured provider and tier equals
(totalInput/1e6) * price_in + (totalOutput/1e6) * price_out. -/
theorem tokenAccounting_additive :
    (∀ usages : List (Option UsageInfo),
        accumulateTokens usages
          = ⟨(usages.map (fun u => match u with
                | none => 0
                | some x => x.inputTokens.getD 0)).sum,
             (usages.map (fun u => match u with
                | none => 0
                | some x => x.outputTokens.getD 0)).sum⟩)
    ∧ accumulateTokens [some ⟨some 10, some 5⟩, some ⟨some 20, some 15⟩] = ⟨30, 20⟩
    ∧ (∀ (model : String) (cheap : Bool) (tc : TokenCounts) (entry : ModelEntry)
         (c : CostsOut),
        MODELS model = some entry → logCosts model cheap tc = Except.ok c →
        c.total
          = ((tc.input : ℚ) / 1000000)
              * (if cheap then entry.costsCheap else entry.costsStandard).input
            + ((tc.output : ℚ) / 1000000)
              * (if cheap then entry.costsCheap else entry.costsStandard).output) := by
  refine ⟨fun usages => ?_, by decide, fun model cheap tc entry c hm hl => ?_⟩
  · rw [accumulateTokens, accumulate_general]
    simp [initialTokenCounts]
  · simp only [logCosts, hm] at hl
    cases hl
    rfl

/-- Witness for C5: provider "openai", cheap tier, totals {30, 20}. -/
theorem tokenAccounting_additive_witness :
    MODELS "openai" = some ⟨"gpt-4-1106-preview", "o4-mini-2025-04-16",
        ⟨2.0, 8.0⟩, ⟨1.10, 4.40⟩⟩
    ∧ logCosts "openai" true ⟨30, 20⟩
        = Except.ok ⟨33 / 1000000, 88 / 1000000, 121 / 1000000⟩
    ∧ (121 / 1000000 : ℚ)
        = ((30 : ℚ) / 1000000) * 1.10 + ((20 : ℚ) / 1000000) * 4.40 := by
  have h1 : MODELS "openai" = some ⟨"gpt-4-1106-preview", "o4-mini-2025-04-16",
      ⟨2.0, 8.0⟩, ⟨1.10, 4.40⟩⟩ := rfl
  have h2 : logCosts "openai" true ⟨30, 20⟩
      = Except.ok ⟨33 / 1000000, 88 / 1000000, 121 / 1000000⟩ := by
    simp only [logCosts, h1]
    norm_num
  refine ⟨h1, h2, ?_⟩
  have h3 := tokenAccounting_additive.2.2 "openai" true ⟨30, 20⟩ _ _ h1 h2
  simpa using h3

/-- Counterexample for C7: for the provider "mistral", absent from the
price table, logCosts raises an error (an undefined property access)
rather than warning and returning a zero estimate. -/
theorem logCosts_unknown_provider_counterexample :
    logCosts "mistral" true ⟨0, 0⟩
      = Except.error "TypeError: cannot read properties of undefined" := rfl

/-- C7 (amended): in classify-with-3-models.js an unknown provider never
reaches cost estimation: readAndValidateSettings rejects it with
"Invalid model"; if logCosts were nevertheless invoked with a provider
absent from MODELS it would raise an error (undefined property access),
not warn with a zero estimate. The warning-and-zero behaviour exists in
starter-app-script.js's calculateCost, which returns cost 0 and logs a
warning for a model absent from its price table. -/
theorem logCosts_unknown_provider_amended :
    (∀ (model : String) (cheap : Bool) (tc : TokenCounts), MODELS model = none →
        logCosts model cheap tc
          = Except.error "TypeError: cannot read properties of undefined")
    ∧ (∀ (modelCell cheapCell : String) (cells : List (Option String)),
        MODELS (if jsToLower modelCell == "google" then "gemini"
                else jsToLower modelCell) = none →
        readAndValidateSettings modelCell cheapCell cells
          = Except.error "Invalid model")
    ∧ (∀ (model : String) (tc : TokenCounts), TOKEN_COSTS model = none →
        calculateCost model tc = (0, true)) := by
  refine ⟨fun model cheap tc h => ?_, fun modelCell cheapCell cells h => ?_,
          fun model tc h => ?_⟩
  · simp [logCosts, h]
  · by_cases hb : jsToLower modelCell == "google"
    · rw [if_pos hb] at h
      exact absurd h (by decide)
    · rw [if_neg hb] at h
      simp [readAndValidateSettings, hb, h]
  · simp [calculateCost, h]

/-- Witness for C7 (amended): the provider "mistral" is rejected at
settings validation, and starter-app-script's calculateCost returns a
zero estimate with a warning for an unknown model. -/
theorem logCosts_unknown_provider_amended_witness :
    MODELS "mistral" = none
    ∧ readAndValidateSettings "mistral" "true" [some "shoes"]
        = Except.error "Invalid model"
    ∧ TOKEN_COSTS "gpt-99" = none
    ∧ calculateCost "gpt-99" ⟨10, 10⟩ = (0, true) :=
  ⟨rfl,
   logCosts_unknown_provider_amended.2.1 "mistral" "true" [some "shoes"] rfl,
   rfl,
   logCosts_unknown_provider_amended.2.2 "gpt-99" ⟨10, 10⟩ rfl⟩

/-- Counterexample for C8: in classify-with-3-models.js the Anthropic
request carries only the API-key header — its header list is exactly
[("x-api-key", key)], with no version header. -/
theorem anthropic_version_header_counterexample :
    (buildRequestV2 "shoes" "k" "claude-3-7-sonnet-latest").map (fun r => r.headers)
      = Except.ok [("x-api-key", "k")]
    ∧ [("x-api-key", "k")].all (fun p => !(p.1 == "anthropic-version")) = true := by
  exact ⟨rfl, by decide⟩

/-- C8 (amended): for every term and key, the classification request is
a single POST with the provider's auth — a Bearer Authorization header
for OpenAI, an x-api-key header for Anthropic (classify-with-3-models.js
sends no version header; the part_007 variant additionally sends
anthropic-version), an API-key query parameter with empty headers for
Gemini — and the body is a message list for OpenAI/Anthropic and a
content-parts list for Gemini. -/
theorem provider_request_auth_amended :
    ∀ (term apiKey : String),
      buildRequestV2 term apiKey "gpt-4-1106-preview"
        = Except.ok ⟨"https://api.openai.com/v1/chat/completions", "POST",
            [("Authorization", "Bearer " ++ apiKey)], "application/json",
            RequestPayload.pOpenai ⟨"gpt-4-1106-preview",
              [⟨"user", createClassificationPrompt term⟩]⟩⟩
      ∧ buildRequestV2 term apiKey "claude-3-7-sonnet-latest"
        = Except.ok ⟨"https://api.anthropic.com/v1/messages", "POST",
            [("x-api-key", apiKey)], "application/json",
            RequestPayload.pAnthropic ⟨[⟨"user", createClassificationPrompt term⟩],
              "claude-3-7-sonnet-latest", 500⟩⟩
      ∧ buildRequestV2 term apiKey "gemini-2.0-flash"
        = Except.ok ⟨"https://generativelanguage.googleapis.com/v1beta/models/"
              ++ "gemini-2.0-flash" ++ ":generateContent?key=" ++ apiKey, "POST",
            [], "application/json",
            RequestPayload.pGemini ⟨[[createClassificationPrompt term]], 500⟩⟩
      ∧ (endpointsP7 apiKey "claude-3-5-haiku-latest" ProviderP7.anthropic).headers
        = [("x-api-key", apiKey), ("anthropic-version", "2023-06-01")] := by
  intro term apiKey
  have hopenai : modelTypeOf "gpt-4-1106-preview" = Except.ok Provider.openai := rfl
  have hanthropic : modelTypeOf "claude-3-7-sonnet-latest"
      = Except.ok Provider.anthropic := rfl
  have hgemini : modelTypeOf "gemini-2.0-flash" = Except.ok Provider.gemini := rfl
  refine ⟨?_, ?_, ?_, rfl⟩
  · rw [buildRequestV2, hopenai]
    rfl
  · rw [buildRequestV2, hanthropic]
    rfl
  · rw [buildRequestV2, hgemini]
    rfl

/-- C10: a result with confidence 0 — including every terminal ERROR
result — is written with an empty string in the Confidence column, not
the number 0, and a duration of 0 (or an absent duration) likewise
renders as an empty string. -/
theorem outputResults_falsy_empty_cells :
    ∀ r : TermResult,
      (r.confidence = 0 → (resultRow r)[2]? = some (Cell.cstr ""))
      ∧ (r.confidence ≠ 0 → (resultRow r)[2]? = some (Cell.cnum r.confidence))
      ∧ (r.duration = some 0 → (resultRow r)[3]? = some (Cell.cstr ""))
      ∧ (r.duration = none → (resultRow r)[3]? = some (Cell.cstr ""))
      ∧ (∀ (t msg : String), resultRow ⟨t, "ERROR", 0, none, some msg⟩
          = [Cell.cstr t, Cell.cstr "ERROR", Cell.cstr "", Cell.cstr "",
             Cell.cstr msg]) := by
  intro r
  refine ⟨fun h => ?_, fun h => ?_, fun h => ?_, fun h => ?_, fun t msg => ?_⟩
  · simp [resultRow, confidenceCell, h]
  · simp [resultRow, confidenceCell, h]
  · simp [resultRow, durationCell, h]
  · simp [resultRow, durationCell, h]
  · simp [resultRow, confidenceCell, durationCell, errorCell]

/-- Witness for C10: the terminal ERROR row for "shoes" renders with
empty Confidence and Duration cells. -/
theorem outputResults_falsy_empty_cells_witness :
    (⟨"shoes", "ERROR", 0, none, some "Error: boom"⟩ : TermResult).confidence = 0
    ∧ (resultRow ⟨"shoes", "ERROR", 0, none, some "Error: boom"⟩)[2]?
        = some (Cell.cstr "") :=
  ⟨rfl,
   (outputResults_falsy_empty_cells
      ⟨"shoes", "ERROR", 0, none, some "Error: boom"⟩).1 rfl⟩

end BtaWk2
